import Mathlib

/-!
Verification of the pangram-webui history core (src/main.py, src/cli.py).

Texts are modelled as `List Char` (Python `str`).  The SQLite table
`analyses` is modelled as a list of records in insertion (rowid) order
together with the next AUTOINCREMENT id.  JSON serialization of the
request/response payloads is modelled as the identity on the structured
values (no claim concerns the serialized form itself).  The REAL columns
(`credits`, fraction columns) only ever receive the integer / rational values
this code writes, so they are modelled as `Nat` / `Rat`.
`ORDER BY created_at DESC` carries no secondary sort key in the source SQL;
it is modelled as a stable sort (scan order = insertion order) on the
`created_at` string, descending.
-/

/-- Python `str.isspace` characters relevant to `str.split()` / `str.strip()`
(ASCII whitespace; the unicode cases do not affect any claim). -/
def pyIsSpace (c : Char) : Bool :=
  c = ' ' || c = '\t' || c = '\n' || c = '\x0d' || c = '\x0b' || c = '\x0c'

/-- Python `str.strip()`: drop leading and trailing whitespace. -/
def pyStrip (s : List Char) : List Char :=
  ((s.dropWhile pyIsSpace).reverse.dropWhile pyIsSpace).reverse

/-- Worker for Python `str.split()` (no separator): split on whitespace runs,
discarding empty tokens.  `acc` is the current in-progress token, reversed. -/
def pySplitAux : List Char → List Char → List (List Char)
  | [], acc => if acc = [] then [] else [acc.reverse]
  | c :: cs, acc =>
    if pyIsSpace c then
      if acc = [] then pySplitAux cs []
      else acc.reverse :: pySplitAux cs []
    else pySplitAux cs (c :: acc)

/-- Python `text.split()` with no arguments. -/
def pySplit (s : List Char) : List (List Char) :=
  pySplitAux s []

/-- src/main.py `count_words`: `len(text.split())`. -/
def count_words (text : List Char) : Nat :=
  (pySplit text).length

/-- src/main.py and src/cli.py `calculate_credits`:
`0` if `word_count == 0`, else `max(1, (word_count + 999) // 1000)`. -/
def calculate_credits (word_count : Nat) : Nat :=
  if word_count = 0 then 0 else max 1 ((word_count + 999) / 1000)

/-- The claim's reference formula: `0` when `w = 0`, and
`(w + 999) div 1000` when `w > 0`.  (Spec-side definition, to be compared
with `calculate_credits`.) -/
def credits_ref (w : Nat) : Nat :=
  if w = 0 then 0 else (w + 999) / 1000

/-- The normalized external detection result: a Python dict with optional
fields, read back via `result.get(...)` with per-field defaults. -/
structure PangramResult where
  headline : Option String := none
  prediction : Option String := none
  prediction_short : Option String := none
  fraction_ai : Option Rat := none
  fraction_ai_assisted : Option Rat := none
  fraction_human : Option Rat := none
  num_ai_segments : Option Nat := none
  num_ai_assisted_segments : Option Nat := none
  num_human_segments : Option Nat := none
  windows : Option (List String) := none
  dashboard_link : Option String := none
deriving DecidableEq

/-- The outbound request payload built in `analyze`:
`{"text": text, "include_dashboard_link": flag}`. -/
structure RequestData where
  text : List Char
  include_dashboard_link : Bool
deriving DecidableEq

/-- One row of the `analyses` table (schema in `init_db`). -/
structure AnalysisRecord where
  id : Nat
  created_at : String
  text : List Char
  word_count : Nat
  credits : Nat
  request_json : RequestData
  response_json : PangramResult
  headline : Option String
  prediction_short : Option String
  fraction_ai : Rat
  fraction_ai_assisted : Rat
  fraction_human : Rat
deriving DecidableEq

/-- The store: rows in insertion (rowid-ascending) order plus the next
AUTOINCREMENT id. -/
structure Store where
  rows : List AnalysisRecord
  next_id : Nat
deriving DecidableEq

/-- A freshly initialized database (`init_db` on a new file). -/
def emptyStore : Store :=
  { rows := [], next_id := 1 }

/-- Ids already assigned are strictly below `next_id` (AUTOINCREMENT). -/
def Store.WF (st : Store) : Prop :=
  ∀ r ∈ st.rows, r.id < st.next_id

/-- The JSON body of a successful `/analyze` response. -/
structure AnalyzeOk where
  id : Nat
  word_count : Nat
  credits : Nat
  headline : String
  prediction : String
  prediction_short : String
  fraction_ai : Rat
  fraction_ai_assisted : Rat
  fraction_human : Rat
  num_ai_segments : Nat
  num_ai_assisted_segments : Nat
  num_human_segments : Nat
  windows : List String
  dashboard_link : Option String
deriving DecidableEq

/-- Response of the `/analyze` endpoint. -/
inductive AnalyzeResponse where
  /-- 400: `{"error": "No text provided"}` -/
  | clientError (msg : String)
  /-- 500: `{"error": str(e)}` -/
  | serverError (msg : String)
  /-- 200 with the normalized result -/
  | ok (body : AnalyzeOk)
deriving DecidableEq

/-- src/main.py `analyze` (POST /analyze).  The external call
`pangram.predict` is a parameter `adapter`; an exception is `.error msg`.
`now` is the `datetime.now().isoformat()` timestamp. -/
def analyze (st : Store) (now : String) (rawText : List Char)
    (include_dashboard_link : Bool)
    (adapter : List Char → Bool → Except String PangramResult) :
    Store × AnalyzeResponse :=
  let text := pyStrip rawText
  if text = [] then
    (st, .clientError "No text provided")
  else
    let word_count := count_words text
    let credits := calculate_credits word_count
    let request_data : RequestData :=
      { text := text, include_dashboard_link := include_dashboard_link }
    match adapter text include_dashboard_link with
    | .error e => (st, .serverError e)
    | .ok result =>
      let row : AnalysisRecord :=
        { id := st.next_id
          created_at := now
          text := text
          word_count := word_count
          credits := credits
          request_json := request_data
          response_json := result
          headline := result.headline
          prediction_short := result.prediction_short
          fraction_ai := result.fraction_ai.getD 0
          fraction_ai_assisted := result.fraction_ai_assisted.getD 0
          fraction_human := result.fraction_human.getD 0 }
      ({ rows := st.rows ++ [row], next_id := st.next_id + 1 },
       .ok { id := st.next_id
             word_count := word_count
             credits := credits
             headline := result.headline.getD ""
             prediction := result.prediction.getD ""
             prediction_short := result.prediction_short.getD ""
             fraction_ai := result.fraction_ai.getD 0
             fraction_ai_assisted := result.fraction_ai_assisted.getD 0
             fraction_human := result.fraction_human.getD 0
             num_ai_segments := result.num_ai_segments.getD 0
             num_ai_assisted_segments := result.num_ai_assisted_segments.getD 0
             num_human_segments := result.num_human_segments.getD 0
             windows := result.windows.getD []
             dashboard_link := result.dashboard_link })

/-- `ORDER BY created_at DESC`: `a` may come before `b` when
`b.created_at <= a.created_at`. -/
def createdGe (a b : AnalysisRecord) : Prop :=
  b.created_at ≤ a.created_at

instance : DecidableRel createdGe := fun a b =>
  inferInstanceAs (Decidable (b.created_at ≤ a.created_at))

instance : IsTotal AnalysisRecord createdGe :=
  ⟨fun a b => le_total b.created_at a.created_at⟩

instance : IsTrans AnalysisRecord createdGe :=
  ⟨fun _ _ _ h1 h2 => le_trans h2 h1⟩

/-- `ORDER BY created_at DESC` with no secondary key, modelled as a stable
sort over the scan (insertion) order. -/
def sortByCreatedDesc (rows : List AnalysisRecord) : List AnalysisRecord :=
  List.insertionSort createdGe rows

/-- One item of the `/history` JSON listing. -/
structure HistoryItem where
  id : Nat
  created_at : String
  word_count : Nat
  credits : Nat
  headline : Option String
  prediction_short : Option String
  fraction_ai : Rat
  fraction_ai_assisted : Rat
  fraction_human : Rat
  text_preview : List Char
deriving DecidableEq

/-- src/main.py `get_history` (GET /history): newest-first, `LIMIT 100`,
`substr(text, 1, 100)` preview, credits recomputed from `word_count`. -/
def get_history (st : Store) : List HistoryItem :=
  ((sortByCreatedDesc st.rows).take 100).map fun row =>
    { id := row.id
      created_at := row.created_at
      word_count := row.word_count
      credits := calculate_credits row.word_count
      headline := row.headline
      prediction_short := row.prediction_short
      fraction_ai := row.fraction_ai
      fraction_ai_assisted := row.fraction_ai_assisted
      fraction_human := row.fraction_human
      text_preview := row.text.take 100 }

/-- The JSON body of a successful `/history/<id>` response. -/
structure DetailItem where
  id : Nat
  created_at : String
  text : List Char
  word_count : Nat
  credits : Nat
  headline : String
  prediction : String
  prediction_short : String
  fraction_ai : Rat
  fraction_ai_assisted : Rat
  fraction_human : Rat
  num_ai_segments : Nat
  num_ai_assisted_segments : Nat
  num_human_segments : Nat
  windows : List String
  dashboard_link : Option String
deriving DecidableEq

/-- src/main.py `get_analysis` (GET /history/<id>): fetch by id
(`WHERE id = ?`); `none` models the 404 response.  Note `credits` is the
stored column `row["credits"]`, not recomputed. -/
def get_analysis (st : Store) (analysis_id : Nat) : Option DetailItem :=
  match st.rows.find? (fun r => r.id = analysis_id) with
  | none => none
  | some row =>
    let result := row.response_json
    some
      { id := row.id
        created_at := row.created_at
        text := row.text
        word_count := row.word_count
        credits := row.credits
        headline := result.headline.getD ""
        prediction := result.prediction.getD ""
        prediction_short := result.prediction_short.getD ""
        fraction_ai := result.fraction_ai.getD 0
        fraction_ai_assisted := result.fraction_ai_assisted.getD 0
        fraction_human := result.fraction_human.getD 0
        num_ai_segments := result.num_ai_segments.getD 0
        num_ai_assisted_segments := result.num_ai_assisted_segments.getD 0
        num_human_segments := result.num_human_segments.getD 0
        windows := result.windows.getD []
        dashboard_link := result.dashboard_link }

/-- The JSON body of the `/stats` response. -/
structure StatsBody where
  total_analyses : Nat
  total_words : Nat
  total_credits : Nat
deriving DecidableEq

/-- src/main.py `get_stats` (GET /stats): `COUNT(*)`,
`COALESCE(SUM(word_count), 0)`, and total credits recomputed in Python by
summing `calculate_credits` over every row's `word_count`. -/
def get_stats (st : Store) : StatsBody :=
  { total_analyses := st.rows.length
    total_words := st.rows.foldl (fun acc r => acc + r.word_count) 0
    total_credits :=
      st.rows.foldl (fun acc r => acc + calculate_credits r.word_count) 0 }

/-- SQL `MIN` over a TEXT column: `NULL` on an empty table, else the
lexicographically least value. -/
def sqlMinString : List String → Option String
  | [] => none
  | s :: rest =>
    match sqlMinString rest with
    | none => some s
    | some m => some (if s ≤ m then s else m)

/-- SQL `MAX` over a TEXT column: `NULL` on an empty table, else the
lexicographically greatest value. -/
def sqlMaxString : List String → Option String
  | [] => none
  | s :: rest =>
    match sqlMaxString rest with
    | none => some s
    | some m => some (if m ≤ s then s else m)

/-- The data printed by src/cli.py `cmd_stats`: totals plus
`MIN(created_at)` / `MAX(created_at)` (absent on an empty table). -/
structure CliStats where
  total_analyses : Nat
  total_words : Nat
  total_credits : Nat
  first_analysis : Option String
  last_analysis : Option String
deriving DecidableEq

/-- src/cli.py `cmd_stats`. -/
def cmd_stats (st : Store) : CliStats :=
  { total_analyses := st.rows.length
    total_words := st.rows.foldl (fun acc r => acc + r.word_count) 0
    total_credits :=
      st.rows.foldl (fun acc r => acc + calculate_credits r.word_count) 0
    first_analysis := sqlMinString (st.rows.map fun r => r.created_at)
    last_analysis := sqlMaxString (st.rows.map fun r => r.created_at) }

/-- One line of the src/cli.py `cmd_list` table: `substr(text, 1, 60)`
preview, credits recomputed from `word_count`. -/
structure CliListItem where
  id : Nat
  created_at : String
  word_count : Nat
  credits : Nat
  prediction_short : Option String
  preview : List Char
deriving DecidableEq

/-- src/cli.py `cmd_list`: newest-first, `LIMIT ?` from `-n`. -/
def cmd_list (st : Store) (limit : Nat) : List CliListItem :=
  ((sortByCreatedDesc st.rows).take limit).map fun row =>
    { id := row.id
      created_at := row.created_at
      word_count := row.word_count
      credits := calculate_credits row.word_count
      prediction_short := row.prediction_short
      preview := row.text.take 60 }

/-- The fields printed by src/cli.py `cmd_show` for one record: credits
recomputed from `word_count`. -/
structure CliShowItem where
  id : Nat
  created_at : String
  word_count : Nat
  credits : Nat
  headline : Option String
  prediction_short : Option String
  text : List Char
deriving DecidableEq

/-- src/cli.py `cmd_show`: fetch by id; `none` models "not found". -/
def cmd_show (st : Store) (analysis_id : Nat) : Option CliShowItem :=
  match st.rows.find? (fun r => r.id = analysis_id) with
  | none => none
  | some row =>
    some
      { id := row.id
        created_at := row.created_at
        word_count := row.word_count
        credits := calculate_credits row.word_count
        headline := row.headline
        prediction_short := row.prediction_short
        text := row.text }

/-- One entry of the src/cli.py `cmd_export` JSON: stored `credits` column,
parsed request/response payloads. -/
structure ExportItem where
  id : Nat
  created_at : String
  text : List Char
  word_count : Nat
  credits : Nat
  request : RequestData
  response : PangramResult
deriving DecidableEq

/-- src/cli.py `cmd_export`: every row, newest-first, stored `credits`. -/
def cmd_export (st : Store) : List ExportItem :=
  (sortByCreatedDesc st.rows).map fun row =>
    { id := row.id
      created_at := row.created_at
      text := row.text
      word_count := row.word_count
      credits := row.credits
      request := row.request_json
      response := row.response_json }

/-- ASCII lower-casing, as SQLite's default `LIKE` applies to `A`-`Z`. -/
def lowerAscii (c : Char) : Char :=
  if 'A' ≤ c ∧ c ≤ 'Z' then Char.ofNat (c.toNat + 32) else c

/-- SQLite `LIKE` matching, fuel-structured so the kernel can evaluate it:
`%` matches any sequence, `_` any one character, other characters match
ASCII-case-insensitively.  Every recursive call shrinks
`pattern.length + text.length`, so the wrapper's fuel is never exhausted. -/
def likeRun : Nat → List Char → List Char → Bool
  | 0, _, _ => false
  | _ + 1, [], t => t.isEmpty
  | fuel + 1, '%' :: ps, [] => likeRun fuel ps []
  | fuel + 1, '%' :: ps, c :: ts =>
    likeRun fuel ps (c :: ts) || likeRun fuel ('%' :: ps) ts
  | _ + 1, _ :: _, [] => false
  | fuel + 1, p :: ps, c :: ts =>
    (p = '_' || lowerAscii p = lowerAscii c) && likeRun fuel ps ts

/-- SQLite `LIKE`: `text LIKE pattern` with the default (ASCII
case-insensitive) collation. -/
def likeMatch (pattern text : List Char) : Bool :=
  likeRun (pattern.length + text.length + 1) pattern text

/-- The pattern `f"%{query}%"` built by `cmd_search`. -/
def likePattern (query : List Char) : List Char :=
  '%' :: (query ++ ['%'])

/-- One line of the src/cli.py `cmd_search` output: `substr(text, 1, 80)`
preview. -/
structure CliSearchItem where
  id : Nat
  created_at : String
  word_count : Nat
  prediction_short : Option String
  preview : List Char
deriving DecidableEq

/-- src/cli.py `cmd_search`: `WHERE text LIKE '%query%'`, newest-first,
`LIMIT ?`. -/
def cmd_search (st : Store) (query : List Char) (limit : Nat) :
    List CliSearchItem :=
  ((sortByCreatedDesc
      (st.rows.filter fun r => likeMatch (likePattern query) r.text)).take
    limit).map fun row =>
    { id := row.id
      created_at := row.created_at
      word_count := row.word_count
      prediction_short := row.prediction_short
      preview := row.text.take 80 }

/-- Spec-side plain substring containment (`query` occurs verbatim in
`text`), for comparison with the source's `LIKE` match. -/
def listStartsWith : List Char → List Char → Bool
  | _, [] => true
  | [], _ :: _ => false
  | c :: ts, q :: qs => c = q && listStartsWith ts qs

/-- Spec-side: `q` is a contiguous substring of `t`. -/
def listContainsSub : List Char → List Char → Bool
  | [], q => q.isEmpty
  | c :: ts, q => listStartsWith (c :: ts) q || listContainsSub ts q

/-- Outcome of src/cli.py `cmd_delete`. -/
inductive DeleteOutcome where
  /-- "Analysis {id} not found." -/
  | notFound
  /-- confirmation declined: "Cancelled." -/
  | cancelled
  /-- "Deleted analysis #{id}" -/
  | deleted
deriving DecidableEq

/-- src/cli.py `cmd_delete`: look up the id; if absent report not-found and
change nothing; otherwise ask for confirmation unless `--force`, and on
confirmation run `DELETE FROM analyses WHERE id = ?`. -/
def cmd_delete (st : Store) (analysis_id : Nat) (force : Bool)
    (confirmInput : String) : Store × DeleteOutcome :=
  match st.rows.find? (fun r => r.id = analysis_id) with
  | none => (st, .notFound)
  | some _ =>
    if !force && confirmInput.toLower ≠ "y" then
      (st, .cancelled)
    else
      ({ st with rows := st.rows.filter fun r => r.id ≠ analysis_id },
       .deleted)

/-- Store states reachable from a fresh database through the operations
that mutate it: web submissions and CLI deletes. -/
inductive Reachable : Store → Prop
  | base : Reachable emptyStore
  | stepAnalyze (st : Store) (now : String) (rawText : List Char)
      (flag : Bool)
      (adapter : List Char → Bool → Except String PangramResult) :
      Reachable st → Reachable (analyze st now rawText flag adapter).1
  | stepDelete (st : Store) (analysis_id : Nat) (force : Bool)
      (confirmInput : String) :
      Reachable st →
      Reachable (cmd_delete st analysis_id force confirmInput).1

/-- Claim C1: `calculate_credits` agrees with the reference formula
(0 at 0, `(w + 999) div 1000` for positive `w`, which already has the
floor of 1 built in), takes the quoted values at 0, 1000, 1001, 2000, and
is monotone non-decreasing. -/
theorem calculate_credits_correct (w v : Nat) (hwv : w ≤ v) :
    calculate_credits w = credits_ref w ∧
    calculate_credits 0 = 0 ∧
    calculate_credits 1000 = 1 ∧
    calculate_credits 1001 = 2 ∧
    calculate_credits 2000 = 2 ∧
    calculate_credits w ≤ calculate_credits v := by
  refine ⟨?_, by decide, by decide, by decide, by decide, ?_⟩
  · unfold calculate_credits credits_ref
    rcases Nat.eq_zero_or_pos w with h | h
    · simp [h]
    · have h1 : w ≠ 0 := Nat.pos_iff_ne_zero.mp h
      have h2 : 1 ≤ (w + 999) / 1000 :=
        (Nat.one_le_div_iff (by norm_num)).mpr (by omega)
      simp [h1, Nat.max_eq_right h2]
  · unfold calculate_credits
    rcases Nat.eq_zero_or_pos w with h | h
    · simp [h]
    · have hw : w ≠ 0 := Nat.pos_iff_ne_zero.mp h
      have hv : v ≠ 0 := by omega
      simp only [hw, hv, if_false]
      exact max_le_max le_rfl (Nat.div_le_div_right (by omega))

/-- Witness for C1 at `w = 1`, `v = 2`. -/
theorem calculate_credits_correct_witness :
    calculate_credits 1 = credits_ref 1 ∧
    calculate_credits 0 = 0 ∧
    calculate_credits 1000 = 1 ∧
    calculate_credits 1001 = 2 ∧
    calculate_credits 2000 = 2 ∧
    calculate_credits 1 ≤ calculate_credits 2 :=
  calculate_credits_correct 1 2 (by decide)

/-- Claim C2: when the detection adapter raises, `analyze` returns the
500 response carrying the failure message, the store is unchanged, and in
particular the aggregate record count is unchanged. -/
theorem analyze_adapter_failure_no_write (st : Store) (now : String)
    (rawText : List Char) (flag : Bool) (msg : String)
    (adapter : List Char → Bool → Except String PangramResult)
    (hne : pyStrip rawText ≠ [])
    (hfail : adapter (pyStrip rawText) flag = .error msg) :
    analyze st now rawText flag adapter = (st, .serverError msg) ∧
    (get_stats (analyze st now rawText flag adapter).1).total_analyses =
      (get_stats st).total_analyses := by
  have h1 : analyze st now rawText flag adapter = (st, .serverError msg) := by
    simp [analyze, hne, hfail]
  exact ⟨h1, by rw [h1]⟩

/-- Witness for C2: a failing adapter on the text "hi" over the empty
store. -/
theorem analyze_adapter_failure_no_write_witness :
    analyze emptyStore "T" ['h', 'i'] false (fun _ _ => .error "boom") =
      (emptyStore, .serverError "boom") ∧
    (get_stats
        (analyze emptyStore "T" ['h', 'i'] false
          (fun _ _ => .error "boom")).1).total_analyses =
      (get_stats emptyStore).total_analyses :=
  analyze_adapter_failure_no_write emptyStore "T" ['h', 'i'] false "boom"
    (fun _ _ => .error "boom") (by decide) rfl

/-- Claim C3: a submission that is blank after trimming gets the 400
"No text provided" response, the store is untouched, and the adapter is
never consulted (the outcome is the same for every adapter). -/
theorem analyze_rejects_blank_text (st : Store) (now : String)
    (rawText : List Char) (flag : Bool)
    (adapter : List Char → Bool → Except String PangramResult)
    (h : pyStrip rawText = []) :
    analyze st now rawText flag adapter =
      (st, .clientError "No text provided") ∧
    (∀ adapter2, analyze st now rawText flag adapter2 =
      analyze st now rawText flag adapter) ∧
    (get_stats (analyze st now rawText flag adapter).1).total_analyses =
      (get_stats st).total_analyses := by
  have key : ∀ ad, analyze st now rawText flag ad =
      (st, .clientError "No text provided") := by
    intro ad
    simp [analyze, h]
  exact ⟨key adapter, fun ad2 => (key ad2).trans (key adapter).symm,
    by rw [key adapter]⟩

/-- Witness for C3: a whitespace-only submission. -/
theorem analyze_rejects_blank_text_witness :
    analyze emptyStore "T" [' ', '\t', '\n'] false (fun _ _ => .ok {}) =
      (emptyStore, .clientError "No text provided") ∧
    (∀ adapter2, analyze emptyStore "T" [' ', '\t', '\n'] false adapter2 =
      analyze emptyStore "T" [' ', '\t', '\n'] false (fun _ _ => .ok {})) ∧
    (get_stats
        (analyze emptyStore "T" [' ', '\t', '\n'] false
          (fun _ _ => .ok {})).1).total_analyses =
      (get_stats emptyStore).total_analyses :=
  analyze_rejects_blank_text emptyStore "T" [' ', '\t', '\n'] false
    (fun _ _ => .ok {}) (by decide)

/-- Evaluating `get_analysis` once the row lookup is known. -/
theorem get_analysis_of_find? (st : Store) (aid : Nat)
    (row : AnalysisRecord)
    (h : st.rows.find? (fun r => r.id = aid) = some row) :
    get_analysis st aid =
      some
        { id := row.id
          created_at := row.created_at
          text := row.text
          word_count := row.word_count
          credits := row.credits
          headline := row.response_json.headline.getD ""
          prediction := row.response_json.prediction.getD ""
          prediction_short := row.response_json.prediction_short.getD ""
          fraction_ai := row.response_json.fraction_ai.getD 0
          fraction_ai_assisted := row.response_json.fraction_ai_assisted.getD 0
          fraction_human := row.response_json.fraction_human.getD 0
          num_ai_segments := row.response_json.num_ai_segments.getD 0
          num_ai_assisted_segments :=
            row.response_json.num_ai_assisted_segments.getD 0
          num_human_segments := row.response_json.num_human_segments.getD 0
          windows := row.response_json.windows.getD []
          dashboard_link := row.response_json.dashboard_link } := by
  simp [get_analysis, h]

/-- A lookup that fails on every row of `l1` continues into `l2`. -/
theorem find?_append_left_none {p : AnalysisRecord → Bool}
    {l1 l2 : List AnalysisRecord} (h : l1.find? p = none) :
    (l1 ++ l2).find? p = l2.find? p := by
  rw [List.find?_append, h, Option.none_or]

/-- Claim C4 counterexample: submitting text with surrounding whitespace
persists the trimmed text, not the original submitted string. -/
theorem analyze_stores_trimmed_text_cex :
    ((analyze emptyStore "T" [' ', 'h', 'i', ' '] false
        (fun _ _ => .ok {})).1.rows.map fun r => r.text) = [['h', 'i']] ∧
    (['h', 'i'] : List Char) ≠ [' ', 'h', 'i', ' '] := by
  exact ⟨by decide, by decide⟩

/-- Claim C4 (amended): a successful submission persists the trimmed
submitted text (equal to the original whenever that was already trimmed),
and fetching the record by the returned id yields text, word count and
credits identical to what was computed at submission. -/
theorem analyze_roundtrip_trimmed (st : Store) (now : String)
    (rawText : List Char) (flag : Bool)
    (adapter : List Char → Bool → Except String PangramResult)
    (result : PangramResult)
    (hWF : st.WF)
    (hne : pyStrip rawText ≠ [])
    (hok : adapter (pyStrip rawText) flag = .ok result) :
    ∃ body : AnalyzeOk,
      (analyze st now rawText flag adapter).2 = .ok body ∧
      body.word_count = count_words (pyStrip rawText) ∧
      body.credits = calculate_credits (count_words (pyStrip rawText)) ∧
      ∃ item : DetailItem,
        get_analysis (analyze st now rawText flag adapter).1 body.id =
          some item ∧
        item.text = pyStrip rawText ∧
        item.word_count = body.word_count ∧
        item.credits = body.credits ∧
        (pyStrip rawText = rawText → item.text = rawText) := by
  have hfind : ∀ row : AnalysisRecord, row.id = st.next_id →
      (st.rows ++ [row]).find? (fun r => r.id = st.next_id) = some row := by
    intro row hrow
    have h0 : st.rows.find? (fun r => r.id = st.next_id) = none := by
      rw [List.find?_eq_none]
      intro x hx
      simp only [decide_eq_true_eq]
      exact Nat.ne_of_lt (hWF x hx)
    rw [find?_append_left_none h0]
    simp [List.find?, hrow]
  simp only [analyze, if_neg hne, hok]
  refine ⟨_, rfl, rfl, rfl, _, get_analysis_of_find? _ st.next_id _
    (hfind _ rfl), rfl, rfl, rfl, fun hh => hh⟩

/-- Witness for C4 (amended): the submission "hi" over the empty store. -/
theorem analyze_roundtrip_trimmed_witness :
    ∃ body : AnalyzeOk,
      (analyze emptyStore "T" ['h', 'i'] false (fun _ _ => .ok {})).2 =
        .ok body ∧
      body.word_count = count_words (pyStrip ['h', 'i']) ∧
      body.credits = calculate_credits (count_words (pyStrip ['h', 'i'])) ∧
      ∃ item : DetailItem,
        get_analysis
            (analyze emptyStore "T" ['h', 'i'] false
              (fun _ _ => .ok {})).1 body.id = some item ∧
        item.text = pyStrip ['h', 'i'] ∧
        item.word_count = body.word_count ∧
        item.credits = body.credits ∧
        (pyStrip ['h', 'i'] = ['h', 'i'] → item.text = ['h', 'i']) :=
  analyze_roundtrip_trimmed emptyStore "T" ['h', 'i'] false
    (fun _ _ => .ok {}) {} (by intro r hr; simp [emptyStore] at hr)
    (by decide) rfl

/-- A record whose stored `credits` column (99) has drifted away from
`calculate_credits` of its word count (4 words, 1 credit): the schema
permits this and nothing reconciles it. -/
def staleRecord : AnalysisRecord :=
  { id := 1
    created_at := "T"
    text := ['h', 'i']
    word_count := 4
    credits := 99
    request_json := { text := ['h', 'i'], include_dashboard_link := false }
    response_json := {}
    headline := none
    prediction_short := none
    fraction_ai := 0
    fraction_ai_assisted := 0
    fraction_human := 0 }

/-- A store holding only `staleRecord`. -/
def staleStore : Store :=
  { rows := [staleRecord], next_id := 2 }

/-- Claim C5 counterexample: the single-record fetch (`get_analysis`)
returns the persisted `credits` column (99), not the recomputation
(`calculate_credits 4 = 1`) that the history listing returns. -/
theorem get_analysis_stored_credits_cex :
    ((get_analysis staleStore 1).map fun item =>
        (item.word_count, item.credits)) = some (4, 99) ∧
    ((get_history staleStore).map fun item =>
        (item.word_count, item.credits)) = [(4, 1)] ∧
    calculate_credits 4 = 1 ∧ (99 : Nat) ≠ 1 :=
  ⟨by decide, by decide, by decide, by decide⟩

/-- Claim C5 (amended): the history listing, the CLI list and the CLI show
commands report credits recomputed from the stored word count, while the
single-record fetch and the CLI export return the persisted `credits`
column unchanged. -/
theorem read_paths_credits (st : Store) (limit aid : Nat) :
    (∀ item ∈ get_history st,
      item.credits = calculate_credits item.word_count) ∧
    (∀ item ∈ cmd_list st limit,
      item.credits = calculate_credits item.word_count) ∧
    (∀ item, cmd_show st aid = some item →
      item.credits = calculate_credits item.word_count) ∧
    (∀ item, get_analysis st aid = some item →
      ∃ r ∈ st.rows, item.id = r.id ∧ item.credits = r.credits ∧
        item.word_count = r.word_count) ∧
    (∀ item ∈ cmd_export st,
      ∃ r ∈ st.rows, item.id = r.id ∧ item.credits = r.credits ∧
        item.word_count = r.word_count) := by
  refine ⟨?_, ?_, ?_, ?_, ?_⟩
  · intro item hitem
    simp only [get_history, List.mem_map] at hitem
    obtain ⟨row, -, rfl⟩ := hitem
    rfl
  · intro item hitem
    simp only [cmd_list, List.mem_map] at hitem
    obtain ⟨row, -, rfl⟩ := hitem
    rfl
  · intro item hitem
    cases hf : st.rows.find? (fun r => r.id = aid) with
    | none => simp [cmd_show, hf] at hitem
    | some row =>
      simp only [cmd_show, hf, Option.some.injEq] at hitem
      subst hitem
      rfl
  · intro item hitem
    cases hf : st.rows.find? (fun r => r.id = aid) with
    | none => simp [get_analysis, hf] at hitem
    | some row =>
      simp only [get_analysis, hf, Option.some.injEq] at hitem
      subst hitem
      exact ⟨row, List.mem_of_find?_eq_some hf, rfl, rfl, rfl⟩
  · intro item hitem
    simp only [cmd_export, List.mem_map] at hitem
    obtain ⟨row, hrow, rfl⟩ := hitem
    exact ⟨row,
      (List.perm_insertionSort createdGe st.rows).mem_iff.mp hrow,
      rfl, rfl, rfl⟩

/-- The history entry produced for `staleRecord`. -/
def staleHistoryItem : HistoryItem :=
  { id := 1
    created_at := "T"
    word_count := 4
    credits := 1
    headline := none
    prediction_short := none
    fraction_ai := 0
    fraction_ai_assisted := 0
    fraction_human := 0
    text_preview := ['h', 'i'] }

/-- Witness for C5 (amended), at the stale one-record store. -/
theorem read_paths_credits_witness :
    staleHistoryItem.credits = calculate_credits staleHistoryItem.word_count :=
  (read_paths_credits staleStore 20 1).1 staleHistoryItem (by decide)

/-- The SQL-style running fold `acc + f r` computes `a` plus the sum of
`f` over the list. -/
theorem foldl_add_map (f : AnalysisRecord → Nat) :
    ∀ (l : List AnalysisRecord) (a : Nat),
      l.foldl (fun acc r => acc + f r) a = a + (l.map f).sum
  | [], a => by simp
  | r :: l, a => by
    simp only [List.foldl_cons, List.map_cons, List.sum_cons,
      foldl_add_map f l (a + f r)]
    omega

/-- `sqlMinString` computes the list minimum. -/
theorem sqlMinString_eq_min? : ∀ l : List String, sqlMinString l = l.min?
  | [] => rfl
  | s :: rest => by
    rw [List.min?_cons]
    simp only [sqlMinString, sqlMinString_eq_min? rest]
    cases h : rest.min? with
    | none => rfl
    | some m => simp [min_def]

/-- `sqlMaxString` computes the list maximum. -/
theorem sqlMaxString_eq_max? : ∀ l : List String, sqlMaxString l = l.max?
  | [] => rfl
  | s :: rest => by
    rw [List.max?_cons]
    simp only [sqlMaxString, sqlMaxString_eq_max? rest]
    cases h : rest.max? with
    | none => rfl
    | some m =>
      simp only [Option.elim, max_def]
      rcases le_total m s with h1 | h1
      · by_cases h2 : s ≤ m
        · have hsm : s = m := le_antisymm h2 h1
          subst hsm
          simp
        · simp [h1, h2]
      · by_cases h2 : m ≤ s
        · have hsm : m = s := le_antisymm h2 h1
          subst hsm
          simp
        · simp [h1, h2]

/-- Claim C6: both stats paths return the record count, the summed word
counts, and total credits recomputed by summing `calculate_credits` of
each stored word count; the CLI adds the min/max creation timestamps,
absent exactly when no records exist; on the empty store all totals are 0
and both timestamps are absent. -/
theorem stats_aggregates_correct (st : Store) :
    (get_stats st).total_analyses = st.rows.length ∧
    (get_stats st).total_words = (st.rows.map fun r => r.word_count).sum ∧
    (get_stats st).total_credits =
      (st.rows.map fun r => calculate_credits r.word_count).sum ∧
    (cmd_stats st).total_analyses = st.rows.length ∧
    (cmd_stats st).total_words = (st.rows.map fun r => r.word_count).sum ∧
    (cmd_stats st).total_credits =
      (st.rows.map fun r => calculate_credits r.word_count).sum ∧
    (cmd_stats st).first_analysis =
      (st.rows.map fun r => r.created_at).min? ∧
    (cmd_stats st).last_analysis =
      (st.rows.map fun r => r.created_at).max? ∧
    ((cmd_stats st).first_analysis = none ↔ st.rows = []) ∧
    ((cmd_stats st).last_analysis = none ↔ st.rows = []) ∧
    get_stats emptyStore =
      { total_analyses := 0, total_words := 0, total_credits := 0 } ∧
    cmd_stats emptyStore =
      { total_analyses := 0, total_words := 0, total_credits := 0
        first_analysis := none, last_analysis := none } := by
  refine ⟨rfl, by simpa using foldl_add_map (fun r => r.word_count) st.rows 0,
    by simpa using
      foldl_add_map (fun r => calculate_credits r.word_count) st.rows 0,
    rfl, by simpa using foldl_add_map (fun r => r.word_count) st.rows 0,
    by simpa using
      foldl_add_map (fun r => calculate_credits r.word_count) st.rows 0,
    sqlMinString_eq_min? _, sqlMaxString_eq_max? _, ?_, ?_, rfl, rfl⟩
  · rw [show (cmd_stats st).first_analysis =
        sqlMinString (st.rows.map fun r => r.created_at) from rfl,
      sqlMinString_eq_min?, List.min?_eq_none_iff, List.map_eq_nil_iff]
  · rw [show (cmd_stats st).last_analysis =
        sqlMaxString (st.rows.map fun r => r.created_at) from rfl,
      sqlMaxString_eq_max?, List.max?_eq_none_iff, List.map_eq_nil_iff]

/-- First-inserted record of a creation-timestamp tie. -/
def tieRec1 : AnalysisRecord :=
  { id := 1
    created_at := "T"
    text := ['a']
    word_count := 1
    credits := 1
    request_json := { text := ['a'], include_dashboard_link := false }
    response_json := {}
    headline := none
    prediction_short := none
    fraction_ai := 0
    fraction_ai_assisted := 0
    fraction_human := 0 }

/-- Second-inserted record with the same creation timestamp. -/
def tieRec2 : AnalysisRecord :=
  { id := 2
    created_at := "T"
    text := ['b']
    word_count := 1
    credits := 1
    request_json := { text := ['b'], include_dashboard_link := false }
    response_json := {}
    headline := none
    prediction_short := none
    fraction_ai := 0
    fraction_ai_assisted := 0
    fraction_human := 0 }

/-- Two records sharing one creation timestamp. -/
def tieStore : Store :=
  { rows := [tieRec1, tieRec2], next_id := 3 }

/-- Claim C7 counterexample: with two records sharing a creation
timestamp, the listing returns them in scan (ascending-id) order, not with
ties broken by descending id. -/
theorem list_recent_tie_order_cex :
    ((cmd_list tieStore 2).map fun item => (item.id, item.created_at)) =
      [(1, "T"), (2, "T")] ∧ (1 : Nat) < 2 := by
  constructor
  · simp only [cmd_list, tieStore, sortByCreatedDesc, List.insertionSort,
      List.orderedInsert]
    rw [if_pos (show createdGe tieRec1 tieRec2 from le_refl "T")]
    rfl
  · decide

/-- Claim C7 (amended): the listings return at most `limit` (resp. 100)
records, with non-increasing creation timestamps across consecutive
results and truncated previews, every item coming from a stored row; the
SQL carries no tie-break clause, and ties surface in scan order. -/
theorem list_recent_ordered (st : Store) (limit : Nat) :
    (cmd_list st limit).length ≤ limit ∧
    List.Pairwise (fun a b : CliListItem => b.created_at ≤ a.created_at)
      (cmd_list st limit) ∧
    (∀ item ∈ cmd_list st limit, ∃ r ∈ st.rows,
      item.id = r.id ∧ item.created_at = r.created_at ∧
      item.word_count = r.word_count ∧
      item.credits = calculate_credits r.word_count ∧
      item.preview = r.text.take 60) ∧
    (get_history st).length ≤ 100 ∧
    List.Pairwise (fun a b : HistoryItem => b.created_at ≤ a.created_at)
      (get_history st) ∧
    (∀ item ∈ get_history st, ∃ r ∈ st.rows,
      item.id = r.id ∧ item.created_at = r.created_at ∧
      item.text_preview = r.text.take 100) := by
  have hs : List.Sorted createdGe (sortByCreatedDesc st.rows) :=
    List.sorted_insertionSort createdGe st.rows
  have hmem : ∀ {n : Nat} {row : AnalysisRecord},
      row ∈ (sortByCreatedDesc st.rows).take n → row ∈ st.rows := by
    intro n row h
    exact (List.perm_insertionSort createdGe st.rows).mem_iff.mp
      (List.take_subset _ _ h)
  refine ⟨?_, ?_, ?_, ?_, ?_, ?_⟩
  · rw [cmd_list, List.length_map]
    exact List.length_take_le _ _
  · rw [cmd_list, List.pairwise_map]
    exact (List.Pairwise.sublist (List.take_sublist _ _) hs).imp fun h => h
  · intro item hitem
    simp only [cmd_list, List.mem_map] at hitem
    obtain ⟨row, hrow, rfl⟩ := hitem
    exact ⟨row, hmem hrow, rfl, rfl, rfl, rfl, rfl⟩
  · rw [get_history, List.length_map]
    exact List.length_take_le _ _
  · rw [get_history, List.pairwise_map]
    exact (List.Pairwise.sublist (List.take_sublist _ _) hs).imp fun h => h
  · intro item hitem
    simp only [get_history, List.mem_map] at hitem
    obtain ⟨row, hrow, rfl⟩ := hitem
    exact ⟨row, hmem hrow, rfl, rfl, rfl⟩

/-- The list line produced for `staleRecord`-free solo store. -/
def soloRec : AnalysisRecord :=
  { id := 1
    created_at := "T"
    text := ['h']
    word_count := 1
    credits := 1
    request_json := { text := ['h'], include_dashboard_link := false }
    response_json := {}
    headline := none
    prediction_short := none
    fraction_ai := 0
    fraction_ai_assisted := 0
    fraction_human := 0 }

/-- A one-record store. -/
def soloStore : Store :=
  { rows := [soloRec], next_id := 2 }

/-- The `cmd_list` line produced for `soloRec`. -/
def soloListItem : CliListItem :=
  { id := 1
    created_at := "T"
    word_count := 1
    credits := 1
    prediction_short := none
    preview := ['h'] }

/-- Witness for C7 (amended): the provenance clause at a one-record
store. -/
theorem list_recent_ordered_witness :
    ∃ r ∈ soloStore.rows,
      soloListItem.id = r.id ∧ soloListItem.created_at = r.created_at ∧
      soloListItem.word_count = r.word_count ∧
      soloListItem.credits = calculate_credits r.word_count ∧
      soloListItem.preview = r.text.take 60 :=
  (list_recent_ordered soloStore 20).2.2.1 soloListItem (by decide)

/-- A stored text in upper case, to be found by a lower-case query. -/
def likeRec : AnalysisRecord :=
  { id := 1
    created_at := "T"
    text := ['B', 'R', 'O', 'W', 'N']
    word_count := 1
    credits := 1
    request_json := { text := ['B', 'R', 'O', 'W', 'N'],
                      include_dashboard_link := false }
    response_json := {}
    headline := none
    prediction_short := none
    fraction_ai := 0
    fraction_ai_assisted := 0
    fraction_human := 0 }

/-- A store holding only `likeRec`. -/
def likeStore : Store :=
  { rows := [likeRec], next_id := 2 }

/-- Claim C8 counterexample: the query "brown" returns the record whose
stored text is "BROWN" (SQLite `LIKE` is ASCII-case-insensitive), yet
"brown" is not a substring of "BROWN", so the result set is not exactly
the substring matches. -/
theorem search_like_case_insensitive_cex :
    ((cmd_search likeStore ['b', 'r', 'o', 'w', 'n'] 20).map
        fun item => item.id) = [1] ∧
    listContainsSub ['B', 'R', 'O', 'W', 'N'] ['b', 'r', 'o', 'w', 'n'] =
      false :=
  ⟨by decide, by decide⟩

/-- Claim C8 (amended): `cmd_search` returns up to `limit` records,
ordered by creation timestamp non-increasing, exactly those rows whose
stored text matches the SQLite `LIKE` pattern `%query%`
(ASCII-case-insensitive, with `%`/`_` in the query acting as wildcards)
— when they all fit within `limit` — and a query matching no stored text
returns the empty sequence. -/
theorem search_like_spec (st : Store) (query : List Char) (limit : Nat) :
    (cmd_search st query limit).length ≤ limit ∧
    List.Pairwise (fun a b : CliSearchItem => b.created_at ≤ a.created_at)
      (cmd_search st query limit) ∧
    (∀ item ∈ cmd_search st query limit, ∃ r ∈ st.rows,
      likeMatch (likePattern query) r.text = true ∧
      item.id = r.id ∧ item.created_at = r.created_at ∧
      item.preview = r.text.take 80) ∧
    ((st.rows.filter fun r => likeMatch (likePattern query) r.text).length
        ≤ limit →
      ∀ r ∈ st.rows, likeMatch (likePattern query) r.text = true →
        ∃ item ∈ cmd_search st query limit,
          item.id = r.id ∧ item.created_at = r.created_at) ∧
    ((∀ r ∈ st.rows, likeMatch (likePattern query) r.text = false) →
      cmd_search st query limit = []) := by
  have hs : List.Sorted createdGe
      (sortByCreatedDesc
        (st.rows.filter fun r => likeMatch (likePattern query) r.text)) :=
    List.sorted_insertionSort createdGe _
  refine ⟨?_, ?_, ?_, ?_, ?_⟩
  · rw [cmd_search, List.length_map]
    exact List.length_take_le _ _
  · rw [cmd_search, List.pairwise_map]
    exact (List.Pairwise.sublist (List.take_sublist _ _) hs).imp fun h => h
  · intro item hitem
    simp only [cmd_search, List.mem_map] at hitem
    obtain ⟨row, hrow, rfl⟩ := hitem
    have hrow2 : row ∈
        st.rows.filter fun r => likeMatch (likePattern query) r.text :=
      (List.perm_insertionSort createdGe _).mem_iff.mp
        (List.take_subset _ _ hrow)
    obtain ⟨hmem, hlike⟩ := List.mem_filter.mp hrow2
    exact ⟨row, hmem, hlike, rfl, rfl, rfl⟩
  · intro hlen r hr hlike
    have hrf : r ∈
        st.rows.filter fun r => likeMatch (likePattern query) r.text :=
      List.mem_filter.mpr ⟨hr, hlike⟩
    have hlen2 :
        (sortByCreatedDesc
            (st.rows.filter fun r =>
              likeMatch (likePattern query) r.text)).length ≤ limit := by
      rw [sortByCreatedDesc, (List.perm_insertionSort createdGe _).length_eq]
      exact hlen
    have hrs : r ∈ (sortByCreatedDesc
        (st.rows.filter fun r =>
          likeMatch (likePattern query) r.text)).take limit := by
      rw [List.take_of_length_le hlen2]
      exact (List.perm_insertionSort createdGe _).mem_iff.mpr hrf
    refine ⟨_, List.mem_map.mpr ⟨r, hrs, rfl⟩, rfl, rfl⟩
  · intro hnone
    have hf : (st.rows.filter fun r =>
        likeMatch (likePattern query) r.text) = [] := by
      rw [List.filter_eq_nil_iff]
      intro a ha
      simp [hnone a ha]
    rw [cmd_search, hf]
    simp [sortByCreatedDesc]

/-- Witness for C8 (amended): the membership clause at the one-record
store, query "brown". -/
theorem search_like_spec_witness :
    ∃ item ∈ cmd_search likeStore ['b', 'r', 'o', 'w', 'n'] 20,
      item.id = likeRec.id ∧ item.created_at = likeRec.created_at :=
  (search_like_spec likeStore ['b', 'r', 'o', 'w', 'n'] 20).2.2.2.1
    (by decide) likeRec (by decide) (by decide)

/-- Claim C9: deleting a missing id reports not-found and changes nothing,
also on repeat; deleting an existing id (forced or confirmed) removes
exactly that record and keeps every other row. -/
theorem delete_by_id_spec (st : Store) (aid : Nat) (force : Bool)
    (ci : String) :
    ((∀ r ∈ st.rows, r.id ≠ aid) →
      cmd_delete st aid force ci = (st, .notFound) ∧
      cmd_delete (cmd_delete st aid force ci).1 aid force ci =
        (st, .notFound)) ∧
    ((∃ r ∈ st.rows, r.id = aid) → (force = true ∨ ci.toLower = "y") →
      (cmd_delete st aid force ci).2 = .deleted ∧
      (∀ r : AnalysisRecord,
        r ∈ (cmd_delete st aid force ci).1.rows ↔
          r ∈ st.rows ∧ r.id ≠ aid) ∧
      (cmd_delete st aid force ci).1.next_id = st.next_id) := by
  constructor
  · intro h
    have hfind : st.rows.find? (fun r => r.id = aid) = none := by
      rw [List.find?_eq_none]
      intro x hx
      simp only [decide_eq_true_eq]
      exact h x hx
    have h1 : cmd_delete st aid force ci = (st, .notFound) := by
      simp [cmd_delete, hfind]
    exact ⟨h1, by rw [h1]; exact h1⟩
  · intro hex hok
    obtain ⟨r0, hr0, hid⟩ := hex
    obtain ⟨r1, hf⟩ :
        ∃ r1, st.rows.find? (fun r => r.id = aid) = some r1 := by
      cases hf : st.rows.find? (fun r => r.id = aid) with
      | none =>
        rw [List.find?_eq_none] at hf
        exact absurd (by simp [hid]) (hf r0 hr0)
      | some r1 => exact ⟨r1, rfl⟩
    have hcond : ¬(force = false ∧ ¬ci.toLower = "y") := by
      rcases hok with h | h
      · simp [h]
      · simp [h]
    refine ⟨by simp [cmd_delete, hf, hcond], ?_, by simp [cmd_delete, hf, hcond]⟩
    intro r
    simp [cmd_delete, hf, hcond, List.mem_filter]

/-- One record, for exercising `cmd_delete`. -/
def delRec : AnalysisRecord :=
  { id := 1
    created_at := "T"
    text := ['h']
    word_count := 1
    credits := 1
    request_json := { text := ['h'], include_dashboard_link := false }
    response_json := {}
    headline := none
    prediction_short := none
    fraction_ai := 0
    fraction_ai_assisted := 0
    fraction_human := 0 }

/-- A store with the single record `delRec`. -/
def delStore : Store :=
  { rows := [delRec], next_id := 2 }

/-- Witness for C9: deleting a missing id (5) twice reports not-found and
keeps the store; deleting the existing id 1 with `--force` reports
deleted. -/
theorem delete_by_id_spec_witness :
    (cmd_delete delStore 5 true "" = (delStore, .notFound) ∧
      cmd_delete (cmd_delete delStore 5 true "").1 5 true "" =
        (delStore, .notFound)) ∧
    (cmd_delete delStore 1 true "").2 = .deleted :=
  ⟨(delete_by_id_spec delStore 5 true "").1 (by decide),
   ((delete_by_id_spec delStore 1 true "").2 ⟨delRec, by decide, rfl⟩
      (Or.inl rfl)).1⟩

/-- A split started inside a token never produces the empty token list. -/
theorem pySplitAux_ne_nil_acc :
    ∀ (s acc : List Char), acc ≠ [] → pySplitAux s acc ≠ [] := by
  intro s
  induction s with
  | nil =>
    intro acc h
    simp [pySplitAux, h]
  | cons c cs ih =>
    intro acc h
    by_cases hc : pyIsSpace c = true
    · simp [pySplitAux, hc, h]
    · simp only [pySplitAux, hc]
      simpa using ih (c :: acc) (by simp)

/-- Splitting a list holding at least one non-space character yields at
least one token. -/
theorem pySplitAux_ne_nil_of_mem :
    ∀ s : List Char, (∃ c ∈ s, pyIsSpace c = false) →
      ∀ acc, pySplitAux s acc ≠ [] := by
  intro s
  induction s with
  | nil =>
    rintro ⟨c, hc, -⟩
    simp at hc
  | cons a s ih =>
    rintro ⟨c, hc, hcf⟩ acc
    by_cases ha : pyIsSpace a = true
    · have hcs : c ∈ s := by
        rcases List.mem_cons.mp hc with rfl | h
        · rw [ha] at hcf
          cases hcf
        · exact h
      by_cases hacc : acc = []
      · simp only [pySplitAux, ha, if_true, hacc]
        exact ih ⟨c, hcs, hcf⟩ []
      · simp [pySplitAux, ha, hacc]
    · simp only [pySplitAux, ha]
      simpa using pySplitAux_ne_nil_acc s (a :: acc) (by simp)

/-- The first character surviving `dropWhile p` does not satisfy `p`. -/
theorem dropWhile_head_false (p : Char → Bool) :
    ∀ (l : List Char) (c : Char) (rest : List Char),
      l.dropWhile p = c :: rest → p c = false := by
  intro l
  induction l with
  | nil =>
    intro c rest h
    simp at h
  | cons a l ih =>
    intro c rest h
    rw [List.dropWhile_cons] at h
    by_cases hp : p a = true
    · rw [if_pos hp] at h
      exact ih c rest h
    · rw [if_neg hp] at h
      obtain ⟨rfl, -⟩ := List.cons.injEq .. ▸ h
      simpa using hp

/-- A text that is non-empty after trimming splits into at least one
word. -/
theorem pyStrip_count_words_pos (s : List Char) (h : pyStrip s ≠ []) :
    1 ≤ count_words (pyStrip s) := by
  have hex : ∃ c ∈ pyStrip s, pyIsSpace c = false := by
    unfold pyStrip at h ⊢
    cases hd : (s.dropWhile pyIsSpace).reverse.dropWhile pyIsSpace with
    | nil =>
      rw [hd] at h
      simp at h
    | cons c rest =>
      refine ⟨c, ?_, dropWhile_head_false pyIsSpace _ c rest hd⟩
      simp
  have hne : pySplit (pyStrip s) ≠ [] :=
    pySplitAux_ne_nil_of_mem _ hex []
  exact List.length_pos.mpr hne

/-- Claim C10: in every store state reachable through the mutating
operations, each persisted record has word count and stored credits at
least 1. -/
theorem reachable_records_positive (st : Store) (h : Reachable st) :
    ∀ r ∈ st.rows, 1 ≤ r.word_count ∧ 1 ≤ r.credits := by
  induction h with
  | base =>
    intro r hr
    simp [emptyStore] at hr
  | stepAnalyze st now rawText flag adapter hst ih =>
    intro r hr
    by_cases hne : pyStrip rawText = []
    · simp only [analyze, if_pos hne] at hr
      exact ih r hr
    · cases had : adapter (pyStrip rawText) flag with
      | error e =>
        simp only [analyze, if_neg hne, had] at hr
        exact ih r hr
      | ok result =>
        simp only [analyze, if_neg hne, had, List.mem_append,
          List.mem_singleton] at hr
        rcases hr with hr | rfl
        · exact ih r hr
        · have hwc : 1 ≤ count_words (pyStrip rawText) :=
            pyStrip_count_words_pos rawText hne
          refine ⟨hwc, ?_⟩
          have hz : count_words (pyStrip rawText) ≠ 0 := by omega
          show 1 ≤ calculate_credits (count_words (pyStrip rawText))
          rw [calculate_credits, if_neg hz]
          exact le_max_left 1 _
  | stepDelete st aid force ci hst ih =>
    intro r hr
    rcases hf : st.rows.find? (fun x => x.id = aid) with _ | r0
    · simp only [cmd_delete, hf] at hr
      exact ih r hr
    · simp only [cmd_delete, hf] at hr
      split at hr
      · exact ih r hr
      · obtain ⟨hr1, -⟩ := List.mem_filter.mp hr
        exact ih r hr1

/-- The trivial adapter used to build a concrete reachable store. -/
def okAdapterW : List Char → Bool → Except String PangramResult :=
  fun _ _ => .ok {}

/-- The store after one successful submission of "hi". -/
def stReach : Store :=
  (analyze emptyStore "T" ['h', 'i'] false okAdapterW).1

/-- The record that submission persists. -/
def recReach : AnalysisRecord :=
  { id := 1
    created_at := "T"
    text := ['h', 'i']
    word_count := 1
    credits := 1
    request_json := { text := ['h', 'i'], include_dashboard_link := false }
    response_json := {}
    headline := none
    prediction_short := none
    fraction_ai := 0
    fraction_ai_assisted := 0
    fraction_human := 0 }

/-- Witness for C10 at the store reached by one submission. -/
theorem reachable_records_positive_witness :
    1 ≤ recReach.word_count ∧ 1 ≤ recReach.credits :=
  reachable_records_positive stReach
    (Reachable.stepAnalyze emptyStore "T" ['h', 'i'] false okAdapterW
      Reachable.base)
    recReach (by decide)
